import Mathlib

/-!
Verification of the rule-based problem-solving core of the AI-CHATBOT-APP
repository (`backend/ai_solver.py`, class `AdvancedProblemSolver`).

The Python code is shallowly embedded as executable Lean definitions:

* Python strings are Lean `String`s; the `in` substring test is `containsSub`,
  `str.lower()` is `pyLower` (ASCII case folding, which is all the keyword
  tables exercise).
* `re.findall(r'\d+', s)` is `digitRunStrings` (maximal runs of ASCII
  digits); `re.search(r'(\d+)\s*[op]\s*(\d+)', s)` is `regexOpSearch`
  (a direct scanner that is equivalent to the regex search because the
  digit class, the whitespace class and the operator classes are disjoint,
  so greedy maximal runs lose no matches).
* Python `float` values produced by the handlers are embedded as exact
  fractions (`PyFloat`, an integer numerator/denominator pair).  Every
  value the program formats is far inside the range where binary64
  rounding and exact rational rounding agree on the printed digits, and no
  formatted value ever falls on a decimal rounding tie, so `formatFixed`
  (round half away from zero on the exact value) produces the same text as
  the CPython `format(x, '.1f')` / `'.2f'` output on these values.  `math.pi` is
  embedded as the exact value of the binary64 constant.
* The `try/except` of `solve_math_problem` is embedded with
  `Except String`: the body `mathTryBody` returns `.error msg` exactly
  where the Python body raises (`ZeroDivisionError`, message
  "division by zero"), `.ok (some s)` where it returns a solution, and
  `.ok none` where it falls off the end.
* `datetime.now()` is a parameter of type `PyDateTime`: the clock read is
  made explicit, so purity of the other handlers is expressible.
-/

/-- Predicate: `leadsWith needle l` is true when `needle` is an initial segment of `l`. -/
def leadsWith : List Char → List Char → Bool
  | [], _ => true
  | _ :: _, [] => false
  | a :: as, b :: bs => a == b && leadsWith as bs

/-- Predicate: `containsSeq needle l` is true when `needle` occurs contiguously in `l`. -/
def containsSeq (needle : List Char) : List Char → Bool
  | [] => leadsWith needle []
  | c :: rest => leadsWith needle (c :: rest) || containsSeq needle rest

/-- Python `needle in hay` (substring containment). -/
def containsSub (hay needle : String) : Bool :=
  containsSeq needle.data hay.data

/-- Python `str.lower()`, ASCII case folding. -/
def pyLower (s : String) : String :=
  ⟨s.data.map Char.toLower⟩

/-- Python regex class `\s` (ASCII whitespace, as exercised by this program). -/
def pyIsSpace (c : Char) : Bool :=
  c == ' ' || c == '\t' || c == '\n' || c == '\x0d' || c == '\x0b' || c == '\x0c'

/-- Maximal runs of decimal digits, accumulator-style; models
`re.findall(r'\d+', ·)`.  The first argument is the reversed run in
progress. -/
def digitRunsAux : List Char → List Char → List (List Char)
  | acc, [] => if acc.isEmpty then [] else [acc.reverse]
  | acc, c :: rest =>
    if c.isDigit then digitRunsAux (c :: acc) rest
    else if acc.isEmpty then digitRunsAux [] rest
    else acc.reverse :: digitRunsAux [] rest

/-- Models `re.findall(r'\d+', text)`: the maximal digit runs of `text`, in order. -/
def digitRunStrings (text : String) : List String :=
  (digitRunsAux [] text.data).map (fun l => String.mk l)

/-- Numeric value of a digit string (Python `int` on a `\d+` match). -/
def natOfDigits (l : List Char) : Nat :=
  l.foldl (fun a c => a * 10 + (c.toNat - 48)) 0

/-- Python `int(s)` for the digit-run strings this program feeds it. -/
def pyInt (s : String) : Int :=
  (natOfDigits s.data : Int)

/-- After a maximal digit run: `\s*`, then one operator from `ops`, then
`\s*`, then at least one digit. -/
def matchOpAfterRun (ops : List Char) (l : List Char) : Bool :=
  match l.dropWhile pyIsSpace with
  | [] => false
  | c :: rest =>
    ops.contains c &&
      (match rest.dropWhile pyIsSpace with
       | [] => false
       | d :: _ => d.isDigit)

/-- Models `re.search(r'(\d+)\s*[ops]\s*(\d+)', ·) is not None`, as a scanner over
the character list: some position starts a digit run whose maximal
extension is followed by `\s*`, an operator from `ops`, `\s*` and a
digit. -/
def regexOpSearch (ops : List Char) : List Char → Bool
  | [] => false
  | c :: rest =>
    (c.isDigit && matchOpAfterRun ops (rest.dropWhile Char.isDigit)) ||
      regexOpSearch ops rest

/-- A Python `float` value of this program, kept as an exact fraction.
Every float the handlers build is a ratio of machine integers (or the
binary64 `math.pi` constant, itself a dyadic rational). -/
structure PyFloat where
  num : Int
  den : Int
deriving DecidableEq

/-- Python true division `a / b` of two ints (`b ≠ 0`), as an exact value. -/
def intDiv (a b : Int) : PyFloat := ⟨a, b⟩

/-- Sum `x + n` of a float `x` and an int `n`. -/
def PyFloat.addInt (x : PyFloat) (n : Int) : PyFloat :=
  ⟨x.num + n * x.den, x.den⟩

/-- Product `x * n` of a float `x` and an int `n`. -/
def PyFloat.mulInt (x : PyFloat) (n : Int) : PyFloat :=
  ⟨x.num * n, x.den⟩

/-- Python `int / int` with the `ZeroDivisionError` made explicit, carrying
the CPython message. -/
def pyDiv (a b : Int) : Except String PyFloat :=
  if b = 0 then .error "division by zero" else .ok (intDiv a b)

/-- The exact value of the binary64 constant `math.pi`
(3.141592653589793…, numerator over `2 ^ 48`). -/
def pyMathPi : PyFloat := ⟨884279719003555, 281474976710656⟩

/-- CPython `format(x, '.<d>f')` on the nonnegative-or-untied values this
program formats: round the exact value to `d` decimal places (half away
from zero — no formatted value of this program lies on a tie) and print
with exactly `d` fractional digits.  Assumes `den > 0`, which holds for
every `PyFloat` the handlers construct. -/
def formatFixed (d : Nat) (x : PyFloat) : String :=
  let scaled : Int := Int.fdiv (x.num * (10 : Int) ^ d * 2 + x.den) (2 * x.den)
  let a := scaled.natAbs
  let ip := a / 10 ^ d
  let fp := a % 10 ^ d
  let fpStr := toString fp
  let fpPad := String.mk (List.replicate (d - fpStr.length) '0') ++ fpStr
  (if scaled < 0 then "-" else "") ++ toString ip ++ "." ++ fpPad

/-- Fractional decimal digits of `r / d`, up to `fuel` digits, stopping
when the remainder is exhausted. -/
def fracDigitsAux : Nat → Nat → Nat → List Char
  | 0, _, _ => []
  | _ + 1, 0, _ => []
  | fuel + 1, r, d =>
    let r10 := r * 10
    Char.ofNat (48 + r10 / d) :: fracDigitsAux fuel (r10 % d) d

/-- Python `str(x)` for a float: exact for the terminating decimal
expansions this program produces in its explanation strings (17-digit
truncation otherwise; no theorem below inspects a non-terminating case). -/
def floatStr (x : PyFloat) : String :=
  let n := x.num.natAbs
  let d := x.den.natAbs
  let ip := n / d
  let r := n % d
  let frac := if r = 0 then "0" else String.mk (fracDigitsAux 17 r d)
  (if x.num < 0 ∨ x.den < 0 then "-" else "") ++ toString ip ++ "." ++ frac

/-- The `answer` field of a result dictionary: the handlers store strings,
ints and floats there. -/
inductive Answer where
  | s (v : String)
  | i (v : Int)
  | f (v : PyFloat)
deriving DecidableEq

/-- The result dictionary every handler returns: `answer`, `explanation`
and `type` always, plus the optional `details` / `formula` / `language`
keys some branches add. -/
structure Solution where
  answer : Answer
  explanation : String
  type : String
  details : Option String := none
  formula : Option String := none
  language : Option String := none
deriving DecidableEq

deriving instance DecidableEq for Except

/-- Source `extract_number`: first integer in the text, defaulting to 1. -/
def extract_number (text : String) : Int :=
  match digitRunStrings text with
  | [] => 1
  | n :: _ => pyInt n

/-- Source `extract_numbers`: all integers in the text, in order. -/
def extract_numbers (text : String) : List Int :=
  (digitRunStrings text).map pyInt

/-- The `0/0` result of `solve_math_problem` (first special case). -/
def indeterminateSolution : Solution :=
  { answer := .s "Indeterminate form (0/0)",
    explanation := "0 divided by 0 is undefined and considered an indeterminate form in mathematics. It requires limit analysis for proper evaluation.",
    type := "mathematics",
    details := some "Use L\x27Hôpital\x27s rule or algebraic manipulation for limits" }

/-- The `infinity` result of `solve_math_problem` (second special case). -/
def infinitySolution : Solution :=
  { answer := .s "∞ (Infinity)",
    explanation := "Infinity represents an unbounded quantity larger than any real number.",
    type := "mathematics",
    details := some "Infinity operations: ∞ + a = ∞, ∞ × ∞ = ∞, a/∞ = 0" }

/-- The placeholder `solve_math_problem` returns when no branch fires. -/
def mathFallbackSolution : Solution :=
  { answer := .s "Complex mathematical problem",
    explanation := "This requires advanced mathematical analysis.",
    type := "mathematics" }

/-- Percentage stage of `solve_math_problem` (`'%' in problem or 'percent'
in problem.lower()`): with at least two extracted integers, compute
`(int(n0) / int(n1)) * 100` — the division can raise — and format to one
decimal; otherwise fall off the end of the body. -/
def mathStagePct (problem : String) : Except String (Option Solution) :=
  if problem.data.contains '%' || containsSub (pyLower problem) "percent" then
    let numbers := digitRunStrings problem
    if 2 ≤ numbers.length then
      let n0 := numbers.getD 0 ""
      let n1 := numbers.getD 1 ""
      match pyDiv (pyInt n0) (pyInt n1) with
      | .error e => .error e
      | .ok q =>
        let percentage := PyFloat.mulInt q 100
        let pStr := formatFixed 1 percentage
        .ok (some { answer := .s (pStr ++ "%"),
                    explanation := "Percentage: (" ++ n0 ++ " ÷ " ++ n1 ++ ") × 100 = " ++ pStr ++ "%",
                    type := "mathematics" })
    else .ok none
  else .ok none

/-- Area stage of `solve_math_problem`: circle (first integer as radius,
default 1; `math.pi * r ** 2`, two decimals) before rectangle (product of
the first two integers, needing at least two); any miss continues to the
percentage stage. -/
def mathStageArea (problem : String) : Except String (Option Solution) :=
  if containsSub (pyLower problem) "area" then
    if containsSub (pyLower problem) "circle" then
      let radius := extract_number problem
      let area := PyFloat.mulInt pyMathPi (radius ^ 2)
      let aStr := formatFixed 2 area
      let piStr := formatFixed 2 pyMathPi
      let rStr := toString radius
      .ok (some { answer := .s aStr,
                  explanation := "Area of circle with radius " ++ rStr ++ " = π × r² = " ++ piStr ++ " × " ++ rStr ++ "²",
                  type := "geometry" })
    else if containsSub (pyLower problem) "rectangle" then
      let numbers := digitRunStrings problem
      if 2 ≤ numbers.length then
        let n0 := numbers.getD 0 ""
        let n1 := numbers.getD 1 ""
        let area := pyInt n0 * pyInt n1
        let aStr := toString area
        .ok (some { answer := .i area,
                    explanation := "Area of rectangle: " ++ n0 ++ " × " ++ n1 ++ " = " ++ aStr,
                    type := "geometry" })
      else mathStagePct problem
    else mathStagePct problem
  else mathStagePct problem

/-- Multiplication/division stage of `solve_math_problem`: on a
`(\d+)\s*[\*\/]\s*(\d+)` match, `'*' in problem` multiplies the first two
integers; else `'/' in problem` with second digit string not literally
`"0"` divides them (float; a multi-digit zero such as `"00"` passes the
string guard and raises); any miss continues to the area stage. -/
def mathStageMulDiv (problem : String) : Except String (Option Solution) :=
  if regexOpSearch ['*', '/'] problem.data then
    let numbers := digitRunStrings problem
    if problem.data.contains '*' then
      let n0 := numbers.getD 0 ""
      let n1 := numbers.getD 1 ""
      let result := pyInt n0 * pyInt n1
      let rStr := toString result
      .ok (some { answer := .i result,
                  explanation := "Multiplication: " ++ n0 ++ " × " ++ n1 ++ " = " ++ rStr,
                  type := "arithmetic" })
    else if problem.data.contains '/' && (numbers.getD 1 "" != "0") then
      let n0 := numbers.getD 0 ""
      let n1 := numbers.getD 1 ""
      match pyDiv (pyInt n0) (pyInt n1) with
      | .error e => .error e
      | .ok q =>
        let qStr := floatStr q
        .ok (some { answer := .f q,
                    explanation := "Division: " ++ n0 ++ " ÷ " ++ n1 ++ " = " ++ qStr,
                    type := "arithmetic" })
    else mathStageArea problem
  else mathStageArea problem

/-- Basic-arithmetic stage of `solve_math_problem`: on a
`(\d+)\s*[\+\-]\s*(\d+)` match, `'+' in problem` sums ALL extracted
integers; else `'-' in problem` subtracts the second from the first; any
miss continues to the multiplication/division stage. -/
def mathStageBasic (problem : String) : Except String (Option Solution) :=
  if regexOpSearch ['+', '-'] problem.data then
    let numbers := digitRunStrings problem
    if problem.data.contains '+' then
      let result := (numbers.map pyInt).sum
      let joined := String.intercalate " + " numbers
      let rStr := toString result
      .ok (some { answer := .i result,
                  explanation := "Addition: " ++ joined ++ " = " ++ rStr,
                  type := "arithmetic" })
    else if problem.data.contains '-' then
      let n0 := numbers.getD 0 ""
      let n1 := numbers.getD 1 ""
      let result := pyInt n0 - pyInt n1
      let rStr := toString result
      .ok (some { answer := .i result,
                  explanation := "Subtraction: " ++ n0 ++ " - " ++ n1 ++ " = " ++ rStr,
                  type := "arithmetic" })
    else mathStageMulDiv problem
  else mathStageMulDiv problem

/-- The `try` body of `solve_math_problem`: the `0/0` and `infinity`
special cases, then the cascade of arithmetic stages. -/
def mathTryBody (problem : String) : Except String (Option Solution) :=
  if containsSub problem "0/0" then .ok (some indeterminateSolution)
  else if containsSub (pyLower problem) "infinity" then .ok (some infinitySolution)
  else mathStageBasic problem

/-- Source `solve_math_problem`: the `try` body, with every raised exception
converted to the `error`-typed result and a fall-through converted to the
generic placeholder. -/
def solve_math_problem (problem : String) : Solution :=
  match mathTryBody problem with
  | .error e =>
    { answer := .s "Unable to solve",
      explanation := "Error in calculation: " ++ e,
      type := "error" }
  | .ok (some sol) => sol
  | .ok none => mathFallbackSolution

/-- Source `solve_physics_problem`: a pure substring lookup over the lowercased
input, four fixed formula cards in priority order, generic card otherwise.
No clock, randomness or mutable state appears in the source body. -/
def solve_physics_problem (problem : String) : Solution :=
  let pl := pyLower problem
  if containsSub pl "velocity" then
    { answer := .s "v = d/t",
      explanation := "Velocity = distance ÷ time",
      type := "physics",
      formula := some "v = Δx/Δt" }
  else if containsSub pl "acceleration" then
    { answer := .s "a = Δv/Δt",
      explanation := "Acceleration = change in velocity ÷ time",
      type := "physics",
      formula := some "a = (v_f - v_i)/t" }
  else if containsSub pl "force" then
    { answer := .s "F = m × a",
      explanation := "Force = mass × acceleration (Newton\x27s Second Law)",
      type := "physics",
      formula := some "F = ma" }
  else if containsSub pl "energy" then
    { answer := .s "E = m × c²",
      explanation := "Energy = mass × speed of light squared (Einstein\x27s equation)",
      type := "physics",
      formula := some "E = mc²" }
  else
    { answer := .s "Physics principle",
      explanation := "Applying fundamental physics laws and equations",
      type := "physics" }

/-- The Python-snippet table of `solve_programming_problem`, in the
insertion order of the source dict (the iteration order of a Python 3.7+
dict). -/
def pythonSnippets : List (String × String) :=
  [("hello world", "print(\"Hello, World!\")"),
   ("fibonacci", "def fib(n):\n    if n <= 1:\n        return n\n    return fib(n-1) + fib(n-2)"),
   ("factorial", "def factorial(n):\n    if n == 0:\n        return 1\n    return n * factorial(n-1)"),
   ("prime check", "def is_prime(n):\n    if n < 2:\n        return False\n    for i in range(2, int(n**0.5)+1):\n        if n % i == 0:\n            return False\n    return True")]

/-- First table entry whose key occurs in the lowercased problem. -/
def findSnippet (pl : String) : List (String × String) → Option (String × String)
  | [] => none
  | kv :: rest => if containsSub pl kv.1 then some kv else findSnippet pl rest

/-- The placeholder `solve_programming_problem` returns with no match. -/
def programmingFallbackSolution : Solution :=
  { answer := .s "Programming solution",
    explanation := "Here\x27s a general approach to solve this programming problem...",
    type := "programming" }

/-- Source `solve_programming_problem`: with `"python"` present, return the first
matching canned snippet; otherwise the generic placeholder. -/
def solve_programming_problem (problem : String) : Solution :=
  let pl := pyLower problem
  if containsSub pl "python" then
    match findSnippet pl pythonSnippets with
    | some kv =>
      { answer := .s ("Python solution for " ++ kv.1),
        explanation := kv.2,
        type := "programming",
        language := some "Python" }
    | none => programmingFallbackSolution
  else programmingFallbackSolution

/-- The value of `datetime.now()` at the moment of a call: the clock read
of `solve_time_date_problem`, made an explicit parameter.  `weekday` is
0 = Monday … 6 = Sunday, as in Python. -/
structure PyDateTime where
  year : Nat
  month : Nat
  day : Nat
  hour : Nat
  minute : Nat
  second : Nat
  weekday : Nat
deriving DecidableEq

/-- Two-digit zero padding (`%H`, `%M`, `%S`, `%m`, `%d`, `%I`). -/
def pad2 (n : Nat) : String :=
  if n < 10 then "0" ++ toString n else toString n

/-- Four-digit zero padding (`%Y` for the years this program can see). -/
def pad4 (n : Nat) : String :=
  let s := toString n
  String.mk (List.replicate (4 - s.length) '0') ++ s

/-- Names for `%A`, indexed by Python `weekday()`. -/
def weekdayNames : List String :=
  ["Monday", "Tuesday", "Wednesday", "Thursday", "Friday", "Saturday", "Sunday"]

/-- Names for `%B`, indexed by month number minus one. -/
def monthNames : List String :=
  ["January", "February", "March", "April", "May", "June", "July",
   "August", "September", "October", "November", "December"]

/-- Models `strftime` with format `%H:%M:%S`. -/
def fmtHMS (t : PyDateTime) : String :=
  pad2 t.hour ++ ":" ++ pad2 t.minute ++ ":" ++ pad2 t.second

/-- Models `strftime` with format `%I:%M %p`. -/
def fmt12Hour (t : PyDateTime) : String :=
  let h12 := if t.hour % 12 = 0 then 12 else t.hour % 12
  let ampm := if t.hour < 12 then "AM" else "PM"
  pad2 h12 ++ ":" ++ pad2 t.minute ++ " " ++ ampm

/-- Models `strftime` with format `%Y-%m-%d`. -/
def fmtYMD (t : PyDateTime) : String :=
  pad4 t.year ++ "-" ++ pad2 t.month ++ "-" ++ pad2 t.day

/-- Models `strftime` with format `%A`. -/
def weekdayName (t : PyDateTime) : String :=
  weekdayNames.getD t.weekday "Monday"

/-- Models `strftime` with the long date format `%A, %B %d, %Y`. -/
def fmtLongDate (t : PyDateTime) : String :=
  weekdayName t ++ ", " ++ monthNames.getD (t.month - 1) "January" ++ " " ++
    pad2 t.day ++ ", " ++ pad4 t.year

/-- Source `solve_time_date_problem`: reads the clock (`now`), then a three-way
substring cascade with a generic placeholder fallback. -/
def solve_time_date_problem (now : PyDateTime) (problem : String) : Solution :=
  if containsSub (pyLower problem) "current time" then
    { answer := .s (fmtHMS now),
      explanation := "Current time is " ++ fmt12Hour now,
      type := "time" }
  else if containsSub (pyLower problem) "current date" then
    { answer := .s (fmtYMD now),
      explanation := "Today is " ++ fmtLongDate now,
      type := "date" }
  else if containsSub (pyLower problem) "day of week" then
    { answer := .s (weekdayName now),
      explanation := "Today is " ++ weekdayName now,
      type := "date" }
  else
    { answer := .s "Time/date information",
      explanation := "Based on current datetime calculations",
      type := "time_date" }

/-- The placeholder `solve_conversion_problem` returns with no match (or
when the matched direction finds no number in the text). -/
def conversionFallbackSolution : Solution :=
  { answer := .s "Conversion result",
    explanation := "Unit conversion using standard formulas",
    type := "conversion" }

/-- Source `solve_conversion_problem`: `"celsius to fahrenheit"` then
`"fahrenheit to celsius"` as substrings of the lowercased input; the first
extracted integer is converted by `F = C*9/5 + 32` resp.
`C = (F-32)*5/9` and formatted to one decimal with a degree suffix; an
empty extraction falls through to the placeholder. -/
def solve_conversion_problem (problem : String) : Solution :=
  let pl := pyLower problem
  if containsSub pl "celsius to fahrenheit" then
    match extract_numbers problem with
    | [] => conversionFallbackSolution
    | celsius :: _ =>
      let fahrenheit := PyFloat.addInt (intDiv (celsius * 9) 5) 32
      let fStr := formatFixed 1 fahrenheit
      let cStr := toString celsius
      { answer := .s (fStr ++ "°F"),
        explanation := cStr ++ "°C = (" ++ cStr ++ " × 9/5) + 32 = " ++ fStr ++ "°F",
        type := "conversion" }
  else if containsSub pl "fahrenheit to celsius" then
    match extract_numbers problem with
    | [] => conversionFallbackSolution
    | fahrenheit :: _ =>
      let celsius := intDiv ((fahrenheit - 32) * 5) 9
      let cStr := formatFixed 1 celsius
      let fStr := toString fahrenheit
      { answer := .s (cStr ++ "°C"),
        explanation := fStr ++ "°F = (" ++ fStr ++ " - 32) × 5/9 = " ++ cStr ++ "°C",
        type := "conversion" }
  else conversionFallbackSolution

/-- The puzzle table of `solve_logic_puzzle`, in source dict order. -/
def logicPuzzles : List (String × String) :=
  [("what comes next", "Analyzing the pattern..."),
   ("logic puzzle", "Applying logical reasoning..."),
   ("riddle", "Thinking creatively to solve...")]

/-- First puzzle response whose key occurs in the lowercased problem. -/
def findPuzzle (pl : String) : List (String × String) → Option String
  | [] => none
  | kv :: rest => if containsSub pl kv.1 then some kv.2 else findPuzzle pl rest

/-- Source `solve_logic_puzzle`: fixed responses for three key phrases, generic
analytical placeholder otherwise.  No puzzle is actually solved. -/
def solve_logic_puzzle (problem : String) : Solution :=
  match findPuzzle (pyLower problem) logicPuzzles with
  | some response =>
    { answer := .s "Logical solution",
      explanation := response,
      type := "logic" }
  | none =>
    { answer := .s "Analytical solution",
      explanation := "Using logical reasoning and pattern recognition",
      type := "logic" }

/-- Math trigger words of `solve_general_problem`, in source order. -/
def mathKeywords : List String :=
  ["calculate", "solve", "what is", "how much", "math", "equation"]

/-- Physics trigger words. -/
def physicsKeywords : List String :=
  ["velocity", "acceleration", "force", "energy", "physics"]

/-- Programming trigger words. -/
def programmingKeywords : List String :=
  ["code", "program", "function", "algorithm", "python", "javascript"]

/-- Time/date trigger words. -/
def timeDateKeywords : List String :=
  ["time", "date", "day", "week", "month", "year"]

/-- Conversion trigger words. -/
def conversionKeywords : List String :=
  ["convert", "feet to meters", "celsius to fahrenheit"]

/-- Python `any(keyword in s for keyword in keys)`. -/
def anyKeyword (keys : List String) (s : String) : Bool :=
  keys.any (fun k => containsSub s k)

/-- Source `solve_general_problem`: the five keyword tests against the lowercased
problem in fixed priority order, logic as the fallback; the chosen handler
is applied to the raw problem.  The clock value `now` is threaded to the
time/date handler, the only reader. -/
def solve_general_problem (now : PyDateTime) (problem : String) : Solution :=
  let pl := pyLower problem
  if anyKeyword mathKeywords pl then solve_math_problem problem
  else if anyKeyword physicsKeywords pl then solve_physics_problem problem
  else if anyKeyword programmingKeywords pl then solve_programming_problem problem
  else if anyKeyword timeDateKeywords pl then solve_time_date_problem now problem
  else if anyKeyword conversionKeywords pl then solve_conversion_problem problem
  else solve_logic_puzzle problem

/-- The six handler buckets of the spec's data model. -/
inductive HandlerCategory where
  | math
  | physics
  | programming
  | time_date
  | conversion
  | logic
deriving DecidableEq

/-- Spec-side classifier (§4.1): the category `solve_general_problem`
implicitly selects, as a standalone function, for comparison with the
dispatch chain of the source. -/
def classify (problem : String) : HandlerCategory :=
  let pl := pyLower problem
  if anyKeyword mathKeywords pl then .math
  else if anyKeyword physicsKeywords pl then .physics
  else if anyKeyword programmingKeywords pl then .programming
  else if anyKeyword timeDateKeywords pl then .time_date
  else if anyKeyword conversionKeywords pl then .conversion
  else .logic

/-- The handler a category names, applied to the problem. -/
def runHandler (now : PyDateTime) (c : HandlerCategory) (problem : String) : Solution :=
  match c with
  | .math => solve_math_problem problem
  | .physics => solve_physics_problem problem
  | .programming => solve_programming_problem problem
  | .time_date => solve_time_date_problem now problem
  | .conversion => solve_conversion_problem problem
  | .logic => solve_logic_puzzle problem

/-- The multiplication/division stage returns nothing: no
`(\d+)\s*[\*\/]\s*(\d+)` match, or a match with no `'*'` in the text and
the `'/'` branch blocked by the literal-`"0"` denominator guard. -/
def fallsPastMulDiv (p : String) : Bool :=
  !regexOpSearch ['*', '/'] p.data ||
    (!p.data.contains '*' &&
      (!p.data.contains '/' || ((digitRunStrings p).getD 1 "" == "0")))

/-- Control reaches the area check of `solve_math_problem`: neither
special case fired, the `[\+\-]` regex did not match, and the
multiplication/division stage fell through. -/
def reachesAreaCheck (p : String) : Bool :=
  !containsSub p "0/0" && !containsSub (pyLower p) "infinity" &&
    !regexOpSearch ['+', '-'] p.data && fallsPastMulDiv p

/-- The `type` strings the handlers can emit (§3 of the spec). -/
def solutionTypes : List String :=
  ["arithmetic", "geometry", "mathematics", "physics", "programming",
   "time", "date", "time_date", "conversion", "logic", "error"]

/-- C1: every input containing the literal substring "0/0" makes
`solve_math_problem` return the fixed indeterminate-form solution
(answer "Indeterminate form (0/0)", type "mathematics") exactly,
whatever else the string contains. -/
theorem c1_math_indeterminate_form (p : String)
    (h : containsSub p "0/0" = true) :
    solve_math_problem p =
      { answer := .s "Indeterminate form (0/0)",
        explanation := "0 divided by 0 is undefined and considered an indeterminate form in mathematics. It requires limit analysis for proper evaluation.",
        type := "mathematics",
        details := some "Use L\x27Hôpital\x27s rule or algebraic manipulation for limits" } := by
  simp [solve_math_problem, mathTryBody, h, indeterminateSolution]

/-- Witness for C1 at the input "what is 0/0 in math". -/
theorem c1_math_indeterminate_form_witness :
    containsSub "what is 0/0 in math" "0/0" = true ∧
    (solve_math_problem "what is 0/0 in math").answer = .s "Indeterminate form (0/0)" :=
  ⟨by decide, by rw [c1_math_indeterminate_form _ (by decide)]⟩

/-- C2 as stated is false: "10/0" contains "0/0" as a literal substring,
so the very first special case fires and the result is the
indeterminate-form solution, not the "Complex mathematical problem"
placeholder. -/
theorem c2_ten_div_zero_counterexample :
    solve_math_problem "10/0" = indeterminateSolution ∧
    solve_math_problem "10/0" ≠ mathFallbackSolution := by
  exact ⟨by decide, by decide⟩

/-- C2 amended: on "10/0" the handler returns the indeterminate-form
solution (the "0/0" check fires first; the division branch is never
consulted) and in particular does not crash. -/
theorem c2_ten_div_zero_amended :
    containsSub "10/0" "0/0" = true ∧
    solve_math_problem "10/0" = indeterminateSolution := by
  exact ⟨by decide, by decide⟩

/-- C6: whenever the `try` body of the math handler raises (returns
`.error msg` in the embedding), `solve_math_problem` yields the
error-typed "Unable to solve" solution with the exception message
embedded in the explanation; the exception never escapes. -/
theorem c6_math_exception_caught (p msg : String)
    (h : mathTryBody p = .error msg) :
    solve_math_problem p =
      { answer := .s "Unable to solve",
        explanation := "Error in calculation: " ++ msg,
        type := "error" } := by
  simp [solve_math_problem, h]

/-- Witness for C6: "percent 5 0" drives the percentage branch into a
zero division, which is caught. -/
theorem c6_math_exception_caught_witness :
    mathTryBody "percent 5 0" = .error "division by zero" ∧
    solve_math_problem "percent 5 0" =
      { answer := .s "Unable to solve",
        explanation := "Error in calculation: division by zero",
        type := "error" } :=
  ⟨by decide,
   (c6_math_exception_caught "percent 5 0" "division by zero" (by decide)).trans
     (by decide)⟩

/-- C3: on any input matching `(\d+)\s*[\+\-]\s*(\d+)` that contains a
'+' and neither "0/0" nor (lowercased) "infinity", the math handler
answers with the sum of ALL integers extracted from the string. -/
theorem c3_sum_all_integers (p : String)
    (hre : regexOpSearch ['+', '-'] p.data = true)
    (hplus : p.data.contains '+' = true)
    (h00 : containsSub p "0/0" = false)
    (hinf : containsSub (pyLower p) "infinity" = false) :
    (solve_math_problem p).answer = .i (extract_numbers p).sum := by
  have hp : '+' ∈ p.data := by simpa using hplus
  simp [solve_math_problem, mathTryBody, mathStageBasic, hre, hp, h00, hinf,
        extract_numbers]

/-- Witness for C3: "what is 2+3" sums to 5 and "12+3+5" sums all three
integers to 20. -/
theorem c3_sum_all_integers_witness :
    regexOpSearch ['+', '-'] "what is 2+3".data = true ∧
    (solve_math_problem "what is 2+3").answer = .i 5 ∧
    (solve_math_problem "12+3+5").answer = .i 20 :=
  ⟨by decide,
   (c3_sum_all_integers "what is 2+3" (by decide) (by decide) (by decide) (by decide)).trans
     (by decide),
   (c3_sum_all_integers "12+3+5" (by decide) (by decide) (by decide) (by decide)).trans
     (by decide)⟩

/-- C5: the conversion handler applies `F = C*9/5 + 32` to the first
extracted integer and formats to one decimal with the degree suffix for
every "celsius to fahrenheit" input with at least one integer; in
particular "celsius to fahrenheit 100" yields "212.0°F" and
"fahrenheit to celsius 32" yields "0.0°C". -/
theorem c5_temperature_conversion :
    (∀ (p : String) (c : Int) (rest : List Int),
        containsSub (pyLower p) "celsius to fahrenheit" = true →
        extract_numbers p = c :: rest →
        (solve_conversion_problem p).answer =
          .s (formatFixed 1 (PyFloat.addInt (intDiv (c * 9) 5) 32) ++ "°F")) ∧
    (solve_conversion_problem "celsius to fahrenheit 100").answer = .s "212.0°F" ∧
    (solve_conversion_problem "fahrenheit to celsius 32").answer = .s "0.0°C" := by
  refine ⟨fun p c rest hc he => ?_, by decide, by decide⟩
  simp [solve_conversion_problem, hc, he]

/-- Witness for C5 at "celsius to fahrenheit 100". -/
theorem c5_temperature_conversion_witness :
    containsSub (pyLower "celsius to fahrenheit 100") "celsius to fahrenheit" = true ∧
    (solve_conversion_problem "celsius to fahrenheit 100").answer = .s "212.0°F" :=
  ⟨by decide,
   (c5_temperature_conversion.1 "celsius to fahrenheit 100" 100 [] (by decide)
     (by decide)).trans (by decide)⟩

/-- C4: the dispatcher is exactly "classify into one of the six
categories by the five keyword tests in fixed priority order, logic as
fallback, then run the handler of that category"; in particular
"what is the current time" is classified math ("what is" wins) and not
time_date. -/
theorem c4_classifier_priority :
    (∀ (now : PyDateTime) (p : String),
        solve_general_problem now p = runHandler now (classify p) p) ∧
    classify "what is the current time" = HandlerCategory.math ∧
    classify "what is the current time" ≠ HandlerCategory.time_date := by
  refine ⟨fun now p => ?_, by decide, by decide⟩
  simp only [solve_general_problem, classify]
  split_ifs <;> rfl

/-- C8: the physics handler depends on nothing but its input string: for
any query classified physics, the result of the full dispatch is
independent of the clock value (the only effectful input of this core),
and equal invocations agree. -/
theorem c8_physics_clock_independent (t1 t2 : PyDateTime) (p : String)
    (h : classify p = HandlerCategory.physics) :
    solve_general_problem t1 p = solve_general_problem t2 p ∧
    solve_general_problem t1 p = solve_physics_problem p := by
  simp only [classify] at h
  simp only [solve_general_problem]
  split_ifs at h ⊢
  all_goals simp_all

/-- Witness for C8: the query "physics" at two different clock values. -/
theorem c8_physics_clock_independent_witness :
    classify "physics" = HandlerCategory.physics ∧
    solve_general_problem ⟨2026, 10, 12, 9, 0, 0, 6⟩ "physics" =
      solve_general_problem ⟨2026, 10, 12, 21, 30, 5, 6⟩ "physics" :=
  ⟨by decide,
   (c8_physics_clock_independent ⟨2026, 10, 12, 9, 0, 0, 6⟩ ⟨2026, 10, 12, 21, 30, 5, 6⟩
     "physics" (by decide)).1⟩

/-- Every solution the percentage stage returns is mathematics-typed. -/
theorem mathStagePct_type (p : String) (s : Solution)
    (h : mathStagePct p = .ok (some s)) : s.type ∈ solutionTypes := by
  simp only [mathStagePct] at h
  repeat' split at h
  all_goals first
    | (injection h with h1; injection h1 with h2; subst h2; simp [solutionTypes])
    | (injection h with h1; injection h1)
    | injection h

/-- Every solution the area stage returns has an enumerated type. -/
theorem mathStageArea_type (p : String) (s : Solution)
    (h : mathStageArea p = .ok (some s)) : s.type ∈ solutionTypes := by
  simp only [mathStageArea] at h
  repeat' split at h
  all_goals first
    | exact mathStagePct_type p s h
    | (injection h with h1; injection h1 with h2; subst h2; simp [solutionTypes])
    | (injection h with h1; injection h1)
    | injection h

/-- Every solution the multiplication/division stage returns has an
enumerated type. -/
theorem mathStageMulDiv_type (p : String) (s : Solution)
    (h : mathStageMulDiv p = .ok (some s)) : s.type ∈ solutionTypes := by
  simp only [mathStageMulDiv] at h
  repeat' split at h
  all_goals first
    | exact mathStageArea_type p s h
    | (injection h with h1; injection h1 with h2; subst h2; simp [solutionTypes])
    | (injection h with h1; injection h1)
    | injection h

/-- Every solution the basic-arithmetic stage returns has an enumerated
type. -/
theorem mathStageBasic_type (p : String) (s : Solution)
    (h : mathStageBasic p = .ok (some s)) : s.type ∈ solutionTypes := by
  simp only [mathStageBasic] at h
  repeat' split at h
  all_goals first
    | exact mathStageMulDiv_type p s h
    | (injection h with h1; injection h1 with h2; subst h2; simp [solutionTypes])
    | (injection h with h1; injection h1)
    | injection h

/-- Every solution the math `try` body returns has an enumerated type. -/
theorem mathTryBody_type (p : String) (s : Solution)
    (h : mathTryBody p = .ok (some s)) : s.type ∈ solutionTypes := by
  simp only [mathTryBody] at h
  repeat' split at h
  all_goals first
    | exact mathStageBasic_type p s h
    | (injection h with h1; injection h1 with h2; subst h2; simp [solutionTypes, indeterminateSolution, infinitySolution])
    | (injection h with h1; injection h1)
    | injection h

/-- The math handler always returns a solution of an enumerated type. -/
theorem solve_math_problem_type (p : String) :
    (solve_math_problem p).type ∈ solutionTypes := by
  unfold solve_math_problem
  split
  · simp [solutionTypes]
  · next heq => exact mathTryBody_type p _ heq
  · simp [mathFallbackSolution, solutionTypes]

/-- The physics handler always returns a physics-typed solution. -/
theorem solve_physics_problem_type (p : String) :
    (solve_physics_problem p).type ∈ solutionTypes := by
  simp only [solve_physics_problem]
  repeat' split
  all_goals simp [solutionTypes]

/-- The programming handler always returns a programming-typed solution. -/
theorem solve_programming_problem_type (p : String) :
    (solve_programming_problem p).type ∈ solutionTypes := by
  simp only [solve_programming_problem]
  repeat' split
  all_goals simp [solutionTypes, programmingFallbackSolution]

/-- The time/date handler always returns a solution of an enumerated
type, at every clock value. -/
theorem solve_time_date_problem_type (now : PyDateTime) (p : String) :
    (solve_time_date_problem now p).type ∈ solutionTypes := by
  simp only [solve_time_date_problem]
  repeat' split
  all_goals simp [solutionTypes]

/-- The conversion handler always returns a conversion-typed solution. -/
theorem solve_conversion_problem_type (p : String) :
    (solve_conversion_problem p).type ∈ solutionTypes := by
  simp only [solve_conversion_problem]
  repeat' split
  all_goals simp [solutionTypes, conversionFallbackSolution]

/-- The logic handler always returns a logic-typed solution. -/
theorem solve_logic_puzzle_type (p : String) :
    (solve_logic_puzzle p).type ∈ solutionTypes := by
  simp only [solve_logic_puzzle]
  repeat' split
  all_goals simp [solutionTypes]

/-- C7: for every clock value and every input string,
`solve_general_problem` returns a solution record (the embedding is a
total function into `Solution`, whose `answer`, `explanation` and `type`
fields always exist) and its `type` is one of the designed enumeration —
every branch of every handler produces a designed record, never a crash
or an absent result. -/
theorem c7_always_returns_solution (now : PyDateTime) (p : String) :
    (solve_general_problem now p).type ∈ solutionTypes := by
  simp only [solve_general_problem]
  split_ifs
  · exact solve_math_problem_type p
  · exact solve_physics_problem_type p
  · exact solve_programming_problem_type p
  · exact solve_time_date_problem_type now p
  · exact solve_conversion_problem_type p
  · exact solve_logic_puzzle_type p

/-- When neither special case, nor the `[\+\-]` regex branch, nor the
`[\*\/]` branch produces a result, the math body continues at the area
check. -/
theorem mathTryBody_eq_area (p : String) (h1 : reachesAreaCheck p = true) :
    mathTryBody p = mathStageArea p := by
  simp only [reachesAreaCheck, fallsPastMulDiv, Bool.and_eq_true, Bool.not_eq_true',
             Bool.or_eq_true] at h1
  obtain ⟨⟨⟨h00, hinf⟩, hreg1⟩, hmd⟩ := h1
  have e1 : mathTryBody p = mathStageBasic p := by
    simp [mathTryBody, h00, hinf]
  have e2 : mathStageBasic p = mathStageMulDiv p := by
    simp [mathStageBasic, hreg1]
  have e3 : mathStageMulDiv p = mathStageArea p := by
    rcases hmd with hr | ⟨hstar, hsd⟩
    · simp [mathStageMulDiv, hr]
    · have hstar' : '*' ∉ p.data := by simpa using hstar
      rcases hsd with hsl | hz
      · have hsl' : '/' ∉ p.data := by simpa using hsl
        simp [mathStageMulDiv, hstar', hsl']
      · have hz' : (digitRunStrings p)[1]?.getD "" = "0" := by
          simpa [List.getD] using hz
        simp [mathStageMulDiv, hstar', hz']
  rw [e1, e2, e3]

/-- C9: any input that reaches the area branch and contains "area" and
"circle" (lowercased) is answered with `math.pi * r ** 2` formatted to
two decimals, `r` being the first extracted integer (1 when the string
has no digits, by `extract_number`). -/
theorem c9_circle_area (p : String)
    (h1 : reachesAreaCheck p = true)
    (h2 : containsSub (pyLower p) "area" = true)
    (h3 : containsSub (pyLower p) "circle" = true) :
    (solve_math_problem p).answer =
      .s (formatFixed 2 (PyFloat.mulInt pyMathPi (extract_number p ^ 2))) := by
  have harea := mathTryBody_eq_area p h1
  simp [solve_math_problem, harea, mathStageArea, h2, h3]

/-- Witness for C9: "area of a circle with radius 3" yields "28.27". -/
theorem c9_circle_area_witness :
    reachesAreaCheck "area of a circle with radius 3" = true ∧
    (solve_math_problem "area of a circle with radius 3").answer = .s "28.27" :=
  ⟨by decide,
   (c9_circle_area "area of a circle with radius 3" (by decide) (by decide)
     (by decide)).trans (by decide)⟩

/-- C10: entering the rectangle-area or the percentage branch with fewer
than two extractable integers produces no error: the handler falls
through to the "Complex mathematical problem" placeholder of type
"mathematics". -/
theorem c10_few_numbers_placeholder (p : String)
    (h1 : reachesAreaCheck p = true)
    (h2 : ¬(containsSub (pyLower p) "area" = true ∧ containsSub (pyLower p) "circle" = true))
    (h3 : (containsSub (pyLower p) "area" = true ∧ containsSub (pyLower p) "rectangle" = true) ∨
            p.data.contains '%' = true ∨ containsSub (pyLower p) "percent" = true)
    (h4 : (digitRunStrings p).length < 2) :
    solve_math_problem p =
      { answer := .s "Complex mathematical problem",
        explanation := "This requires advanced mathematical analysis.",
        type := "mathematics" } := by
  have harea := mathTryBody_eq_area p h1
  have hlen : ¬(2 ≤ (digitRunStrings p).length) := by omega
  have e4 : mathStageArea p = .ok none := by
    by_cases ha : containsSub (pyLower p) "area" = true
    · have hc : containsSub (pyLower p) "circle" = false := by
        rcases Bool.eq_false_or_eq_true (containsSub (pyLower p) "circle") with hv | hv
        · exact absurd ⟨ha, hv⟩ h2
        · exact hv
      simp [mathStageArea, mathStagePct, ha, hc, hlen]
    · have ha' : containsSub (pyLower p) "area" = false := by
        cases hval : containsSub (pyLower p) "area" <;> simp_all
      simp [mathStageArea, mathStagePct, ha', hlen]
  simp [solve_math_problem, harea, e4, mathFallbackSolution]

/-- Witness for C10: "area of rectangle 5" has one integer and lands on
the placeholder. -/
theorem c10_few_numbers_placeholder_witness :
    reachesAreaCheck "area of rectangle 5" = true ∧
    (digitRunStrings "area of rectangle 5").length < 2 ∧
    solve_math_problem "area of rectangle 5" =
      { answer := .s "Complex mathematical problem",
        explanation := "This requires advanced mathematical analysis.",
        type := "mathematics" } :=
  ⟨by decide, by decide,
   c10_few_numbers_placeholder "area of rectangle 5" (by decide) (by decide)
     (by decide) (by decide)⟩
